import Mathlib

/-!
Verification of the `copilot_super` repository (src/copilot_super/core.py).

The repository contains a single pure function:

    def greet(name: str) -> str:
        if not name:
            raise ValueError("name must not be empty")
        return f"Hello, {name}!"

We embed it shallowly: Python `str` becomes Lean `String`, raising an
exception becomes returning `Except.error` carrying the exception kind and
message, and the f-string `f"Hello, {name}!"` becomes string concatenation.
For a `str`, Python's `not name` is true exactly when `name` is the empty
string, so the guard is embedded as `name = ""`.
-/

/-- A Python exception as raised by `core.py`: a `ValueError` carrying its
message string. The spec calls this error kind `InvalidArgument`. -/
inductive PyError where
  | valueError (msg : String)
deriving DecidableEq, Repr

/-- Shallow embedding of `greet` from `src/copilot_super/core.py`:
raises `ValueError("name must not be empty")` on the empty string,
otherwise returns `"Hello, " + name + "!"`. -/
def greet (name : String) : Except PyError String :=
  if name = "" then
    Except.error (PyError.valueError "name must not be empty")
  else
    Except.ok ("Hello, " ++ name ++ "!")

/-- C1: for every non-empty string `n`, `greet n` succeeds with exactly the
concatenation `"Hello, " ++ n ++ "!"`, using `n` unchanged. -/
theorem greet_nonempty_eq (n : String) (h : n ≠ "") :
    greet n = Except.ok ("Hello, " ++ n ++ "!") := by
  simp [greet, h]

/-- Witness for C1 at the concrete input `"World"`. -/
theorem greet_nonempty_eq_witness :
    greet "World" = Except.ok ("Hello, " ++ "World" ++ "!") :=
  greet_nonempty_eq "World" (by decide)

/-- C2: `greet` fails (returns an error) if and only if the input is the
empty string; every other input succeeds. -/
theorem greet_error_iff_empty (n : String) :
    (∃ e, greet n = Except.error e) ↔ n = "" := by
  by_cases h : n = "" <;> simp [greet, h]

/-- C3: `greet ""` fails with the `InvalidArgument` error (a `ValueError`)
rather than returning any greeting. -/
theorem greet_empty_fails :
    greet "" = Except.error (PyError.valueError "name must not be empty") ∧
      ∀ s, greet "" ≠ Except.ok s := by
  refine ⟨rfl, fun s hs => ?_⟩
  simp [greet] at hs

/-- C4: `greet` is deterministic and stateless: two calls on the same input
yield the identical result, success or failure alike. -/
theorem greet_deterministic (n : String) (r₁ r₂ : Except PyError String)
    (h₁ : greet n = r₁) (h₂ : greet n = r₂) : r₁ = r₂ :=
  h₁ ▸ h₂ ▸ rfl

/-- Witness for C4 at the concrete input `"World"`. -/
theorem greet_deterministic_witness :
    (Except.ok "Hello, World!" : Except PyError String) = Except.ok "Hello, World!" :=
  greet_deterministic "World" _ _ rfl rfl

/-- C5: for every non-empty input `n`, the successful output of `greet n`
starts with `"Hello, "` and ends with `"!"` (stated on the underlying
character lists). -/
theorem greet_starts_and_ends (n : String) (h : n ≠ "") :
    ∃ s, greet n = Except.ok s ∧
      "Hello, ".data <+: s.data ∧ "!".data <:+ s.data := by
  refine ⟨"Hello, " ++ n ++ "!", greet_nonempty_eq n h, ?_, ?_⟩
  · exact ⟨n.data ++ "!".data, by simp [String.data_append]⟩
  · exact ⟨"Hello, ".data ++ n.data, by simp [String.data_append]⟩

/-- Witness for C5 at the concrete input `"World"`. -/
theorem greet_starts_and_ends_witness :
    ∃ s, greet "World" = Except.ok s ∧
      "Hello, ".data <+: s.data ∧ "!".data <:+ s.data :=
  greet_starts_and_ends "World" (by decide)

/-- C6: `greet "World"` returns `"Hello, World!"` and `greet "Alice"`
returns `"Hello, Alice!"`. -/
theorem greet_examples :
    greet "World" = Except.ok "Hello, World!" ∧
      greet "Alice" = Except.ok "Hello, Alice!" :=
  ⟨rfl, rfl⟩

/-- C7: on the empty input, `greet` surfaces the error directly and never
substitutes a default greeting: the result is not a success, and it is
exactly the `InvalidArgument` error. -/
theorem greet_empty_no_fallback :
    (greet "").isOk = false ∧
      greet "" = Except.error (PyError.valueError "name must not be empty") :=
  ⟨rfl, rfl⟩

/-- C8: the error raised on the empty name is a `ValueError` carrying
exactly the message `"name must not be empty"`. -/
theorem greet_empty_message :
    greet "" = Except.error (PyError.valueError "name must not be empty") :=
  rfl

/-- C9: `greet` is injective on valid inputs: if two non-empty names yield
equal results, the names are equal. -/
theorem greet_injective (n₁ n₂ : String) (h₁ : n₁ ≠ "") (h₂ : n₂ ≠ "")
    (heq : greet n₁ = greet n₂) : n₁ = n₂ := by
  rw [greet_nonempty_eq n₁ h₁, greet_nonempty_eq n₂ h₂] at heq
  have hs : "Hello, " ++ n₁ ++ "!" = "Hello, " ++ n₂ ++ "!" :=
    Except.ok.inj heq
  have hd : "Hello, ".data ++ n₁.data ++ "!".data
      = "Hello, ".data ++ n₂.data ++ "!".data := by
    have := congrArg String.data hs
    simpa [String.data_append, List.append_assoc] using this
  have hmid : n₁.data = n₂.data := by
    have h' := List.append_cancel_right hd
    exact List.append_cancel_left h'
  cases n₁; cases n₂
  exact congrArg String.mk (by simpa using hmid)

/-- Witness for C9 at the concrete inputs `"World"` and `"World"`. -/
theorem greet_injective_witness : ("World" : String) = "World" :=
  greet_injective "World" "World" (by decide) (by decide) rfl

/-- C10: for every non-empty `n`, `greet n` succeeds with a string whose
length is exactly `n.length + 8`. -/
theorem greet_length (n : String) (h : n ≠ "") :
    ∃ s, greet n = Except.ok s ∧ s.length = n.length + 8 := by
  refine ⟨"Hello, " ++ n ++ "!", greet_nonempty_eq n h, ?_⟩
  simp only [String.length_append]
  have h7 : "Hello, ".length = 7 := rfl
  have h1 : "!".length = 1 := rfl
  omega

/-- Witness for C10 at the concrete input `"World"`. -/
theorem greet_length_witness :
    ∃ s, greet "World" = Except.ok s ∧ s.length = "World".length + 8 :=
  greet_length "World" (by decide)
